import Mathlib

/-!
Shallow embedding of the `news_forecaster` package (news aggregator /
change-significance pipeline) and proofs about it.

The embedding follows the source modules:
  * `news_forecaster/models.py`    - data model (`NewsArticle`, `NewsSnapshot`,
    `ChangeReport`) including the pydantic field validation that runs at
    construction time;
  * `news_forecaster/news_aggregator.py` - `merge_with_previous`,
    `get_new_articles`;
  * `news_forecaster/change_detector.py` - `detect_changes` and
    `_parse_json_response` (the three-strategy defensive JSON parse);
  * `news_forecaster/run.py`       - the `process_question` orchestration
    (its try/except returning `None` on any raised exception);
  * `news_forecaster/storage.py`   - `_save_model` / `_load_model`
    round-trip at the JSON-value level.

Conventions: Python floats are modelled as `Rat` (the pipeline only parses,
compares and range-checks scores, never does arithmetic on them, so this is
exact for every value the claims exercise); Python exceptions are `Except
String`; the external text-generation reply is an explicit `String` argument;
`datetime` is a record of calendar fields plus an optional UTC-offset.
-/

namespace NewsForecaster

/-! ### Characters and digits -/

/-- Backtick character (written via its code point). -/
def bq : Char := Char.ofNat 96

/-- Opening curly brace character. -/
def lb : Char := Char.ofNat 123

/-- Closing curly brace character. -/
def rb : Char := Char.ofNat 125

/-- Digit character for a value `0..9`. -/
def dChar (d : Nat) : Char := Char.ofNat (48 + d)

/-- Numeric value of a digit character. -/
def dVal (c : Char) : Nat := c.toNat - 48

/-- Whitespace class of Python's `re` module `\s` (ASCII part), used by the
regex searches in `_parse_json_response`. -/
def isPyWs (c : Char) : Bool :=
  c = ' ' || c = '\t' || c = '\n' || c = '\r' || c = '\x0b' || c = '\x0c'

/-- Whitespace accepted between tokens by Python's `json` module
(space, tab, newline, carriage return only). -/
def isJsonWs (c : Char) : Bool :=
  c = ' ' || c = '\t' || c = '\n' || c = '\r'

/-! ### JSON values

Python `json.loads` produces dicts / lists / strings / numbers / booleans /
`None`.  Numbers are modelled as rationals (`int` and `float` collapsed: the
detector only applies `float(...)` coercion and comparisons to them).
Objects are association lists in textual order; duplicate keys are resolved
by `objGet` taking the last binding, matching Python dict construction
order ("last wins"). -/

inductive JsonValue where
  | null : JsonValue
  | bool (b : Bool) : JsonValue
  | num (q : Rat) : JsonValue
  | str (s : String) : JsonValue
  | arr (items : List JsonValue) : JsonValue
  | obj (fields : List (String × JsonValue)) : JsonValue

/-- Dict lookup: last binding for the key wins (Python dict built by
`json.loads` overwrites earlier duplicate keys). -/
def objGet : List (String × JsonValue) → String → Option JsonValue
  | [], _ => none
  | (k, v) :: rest, key =>
      match objGet rest key with
      | some r => some r
      | none => if k = key then some v else none

/-! ### A JSON text parser modelling `json.loads`

Recursive descent over `List Char` with explicit fuel (each recursive call
consumes at least one character, so `length + 1` fuel always suffices).
Python's `json.loads` in its default strict mode: strict number grammar
(no leading zeros, no bare `.5` / `5.`), string escapes
`\" \\ \/ \b \f \n \r \t \uXXXX`, control characters forbidden inside
strings, no trailing commas, and the whole input must be a single value
surrounded only by whitespace. -/

/-- Drop leading JSON whitespace. -/
def dropJsonWs : List Char → List Char
  | [] => []
  | c :: rest => if isJsonWs c then dropJsonWs rest else c :: rest

/-- Parse a maximal run of decimal digits, returning them and the rest. -/
def takeDigits : List Char → (List Char × List Char)
  | [] => ([], [])
  | c :: rest =>
      if c.isDigit then
        let (ds, r) := takeDigits rest
        (c :: ds, r)
      else ([], c :: rest)

/-- Value of a digit string (most significant first), with accumulator. -/
def digitsVal (acc : Nat) : List Char → Nat
  | [] => acc
  | c :: rest => digitsVal (acc * 10 + dVal c) rest

/-- Parse the JSON integer part grammar `0 | [1-9][0-9]*`. -/
def parseJsonInt (l : List Char) : Except String (Nat × List Char) :=
  match takeDigits l with
  | ([], _) => .error "invalid number"
  | ([c], r) => .ok (dVal c, r)
  | (c :: ds, r) =>
      if c = '0' then .error "leading zero" else .ok (digitsVal 0 (c :: ds), r)

/-- Parse an optional JSON fraction `.[0-9]+`, returning the fraction digits
as a value and a digit count. -/
def parseJsonFrac (l : List Char) : Except String ((Nat × Nat) × List Char) :=
  match l with
  | '.' :: rest =>
      match takeDigits rest with
      | ([], _) => .error "invalid fraction"
      | (ds, r) => .ok ((digitsVal 0 ds, ds.length), r)
  | _ => .ok ((0, 0), l)

/-- Parse an optional JSON exponent `[eE][+-]?[0-9]+`, returning its sign and
magnitude (`(false, 0)` when absent). -/
def parseJsonExp (l : List Char) : Except String ((Bool × Nat) × List Char) :=
  match l with
  | c :: rest =>
      if c = 'e' || c = 'E' then
        let (eneg, rest') :=
          match rest with
          | '-' :: r => (true, r)
          | '+' :: r => (false, r)
          | r => (false, r)
        match takeDigits rest' with
        | ([], _) => .error "invalid exponent"
        | (ds, r) => .ok ((eneg, digitsVal 0 ds), r)
      else .ok ((false, 0), l)
  | [] => .ok ((false, 0), [])

/-- Assemble a rational from sign, integer part, fraction digits (value and
count) and exponent, using only integer arithmetic and `mkRat` (the value is
`±(i.fffff) * 10^(±e)` exactly). -/
def assembleRat (neg : Bool) (i f k : Nat) (eneg : Bool) (e : Nat) : Rat :=
  let base : Nat := i * 10 ^ k + f
  let n : Int := if neg then -(base : Int) else (base : Int)
  if eneg then mkRat n (10 ^ k * 10 ^ e) else mkRat (n * 10 ^ e) (10 ^ k)

/-- Parse a JSON number (after an optional leading `-` was recognised by the
caller passing `neg`). -/
def parseJsonNumber (neg : Bool) (l : List Char) :
    Except String (JsonValue × List Char) := do
  let (i, l) ← parseJsonInt l
  let (fk, l) ← parseJsonFrac l
  let (ee, l) ← parseJsonExp l
  .ok (.num (assembleRat neg i fk.1 fk.2 ee.1 ee.2), l)

/-- Hexadecimal digit test. -/
def isHexDigitCh (c : Char) : Bool :=
  c.isDigit || ('a' ≤ c && c ≤ 'f') || ('A' ≤ c && c ≤ 'F')

/-- Parse four hex digits of a `\u` escape. -/
def parseHex4 (l : List Char) : Except String (Nat × List Char) :=
  match l with
  | a :: b :: c :: d :: r =>
      if isHexDigitCh a && isHexDigitCh b && isHexDigitCh c && isHexDigitCh d then
        let hv : Char → Nat := fun ch =>
          if ch.isDigit then dVal ch
          else if 'a' ≤ ch ∧ ch ≤ 'f' then ch.toNat - 87
          else ch.toNat - 55
        .ok (((hv a * 16 + hv b) * 16 + hv c) * 16 + hv d, r)
      else .error "invalid hex escape"
  | _ => .error "invalid hex escape"

/-- Parse the body of a JSON string after the opening quote: characters up to
the closing quote, handling escapes, rejecting raw control characters
(strict mode). -/
def parseJsonStringBody (fuel : Nat) (l : List Char) :
    Except String (List Char × List Char) :=
  match fuel, l with
  | 0, _ => .error "out of fuel"
  | _, [] => .error "unterminated string"
  | fuel + 1, c :: rest =>
      if c = '"' then .ok ([], rest)
      else if c = '\\' then
        match rest with
        | [] => .error "bad escape"
        | e :: rest' =>
            let unesc : Except String (Char × List Char) :=
              if e = '"' then .ok ('"', rest')
              else if e = '\\' then .ok ('\\', rest')
              else if e = '/' then .ok ('/', rest')
              else if e = 'b' then .ok ('\x08', rest')
              else if e = 'f' then .ok ('\x0c', rest')
              else if e = 'n' then .ok ('\n', rest')
              else if e = 'r' then .ok ('\r', rest')
              else if e = 't' then .ok ('\t', rest')
              else if e = 'u' then do
                let (n, r) ← parseHex4 rest'
                .ok (Char.ofNat n, r)
              else .error "bad escape"
            match unesc with
            | .error m => .error m
            | .ok (ch, r) => do
                let (s, r') ← parseJsonStringBody fuel r
                .ok (ch :: s, r')
      else if c.toNat < 32 then .error "control character in string"
      else do
        let (s, r') ← parseJsonStringBody fuel rest
        .ok (c :: s, r')

/-- Expect a literal keyword such as `true`, `false`, `null`. -/
def expectWord (w : List Char) (l : List Char) : Except String (List Char) :=
  match w, l with
  | [], l => .ok l
  | c :: w', x :: l' => if c = x then expectWord w' l' else .error "bad literal"
  | _ :: _, [] => .error "bad literal"

mutual

/-- Parse one JSON value (leading whitespace allowed), returning the value and
the unconsumed rest. -/
def parseJsonValue (fuel : Nat) (l : List Char) :
    Except String (JsonValue × List Char) :=
  match fuel with
  | 0 => .error "out of fuel"
  | fuel + 1 =>
      match dropJsonWs l with
      | [] => .error "expecting value"
      | c :: rest =>
          if c = lb then do
            let (fs, r) ← parseJsonObjFields fuel rest
            .ok (.obj fs, r)
          else if c = '[' then do
            let (vs, r) ← parseJsonArrItems fuel rest
            .ok (.arr vs, r)
          else if c = '"' then do
            let (s, r) ← parseJsonStringBody fuel rest
            .ok (.str ⟨s⟩, r)
          else if c = 't' then do
            let r ← expectWord ['r', 'u', 'e'] rest
            .ok (.bool true, r)
          else if c = 'f' then do
            let r ← expectWord ['a', 'l', 's', 'e'] rest
            .ok (.bool false, r)
          else if c = 'n' then do
            let r ← expectWord ['u', 'l', 'l'] rest
            .ok (.null, r)
          else if c = '-' then parseJsonNumber true rest
          else if c.isDigit then parseJsonNumber false (c :: rest)
          else .error "expecting value"
termination_by structural fuel

/-- Parse the fields of a JSON object right after the opening brace: either a
closing brace (empty object) or a first `"key": value` field followed by
`parseJsonObjMore`. -/
def parseJsonObjFields (fuel : Nat) (l : List Char) :
    Except String (List (String × JsonValue) × List Char) :=
  match fuel with
  | 0 => .error "out of fuel"
  | fuel + 1 =>
      match dropJsonWs l with
      | [] => .error "unterminated object"
      | c :: rest =>
          if c = rb then .ok ([], rest)
          else do
            let (kv, r) ← parseJsonObjField fuel (c :: rest)
            let (fs, r') ← parseJsonObjMore fuel r
            .ok (kv :: fs, r')
termination_by structural fuel

/-- Parse one `"key" ws : value` object field (no leading whitespace). -/
def parseJsonObjField (fuel : Nat) (l : List Char) :
    Except String ((String × JsonValue) × List Char) :=
  match fuel with
  | 0 => .error "out of fuel"
  | fuel + 1 =>
      match l with
      | '"' :: r1 => do
          let (k, r2) ← parseJsonStringBody fuel r1
          match dropJsonWs r2 with
          | ':' :: r3 => do
              let (v, r4) ← parseJsonValue fuel r3
              .ok ((⟨k⟩, v), r4)
          | _ => .error "expecting colon"
      | _ => .error "expecting key"
termination_by structural fuel

/-- After one object field: either a closing brace or a comma and more
fields. -/
def parseJsonObjMore (fuel : Nat) (l : List Char) :
    Except String (List (String × JsonValue) × List Char) :=
  match fuel with
  | 0 => .error "out of fuel"
  | fuel + 1 =>
      match dropJsonWs l with
      | c :: rest =>
          if c = rb then .ok ([], rest)
          else if c = ',' then do
            match dropJsonWs rest with
            | c' :: rest' => do
                let (kv, r) ← parseJsonObjField fuel (c' :: rest')
                let (fs, r') ← parseJsonObjMore fuel r
                .ok (kv :: fs, r')
            | [] => .error "unterminated object"
          else .error "expecting comma or brace"
      | [] => .error "unterminated object"
termination_by structural fuel

/-- Parse the items of a JSON array right after the opening bracket. -/
def parseJsonArrItems (fuel : Nat) (l : List Char) :
    Except String (List JsonValue × List Char) :=
  match fuel with
  | 0 => .error "out of fuel"
  | fuel + 1 =>
      match dropJsonWs l with
      | [] => .error "unterminated array"
      | c :: rest =>
          if c = ']' then .ok ([], rest)
          else do
            let (v, r1) ← parseJsonValue fuel (c :: rest)
            let (vs, r2) ← parseJsonArrMore fuel r1
            .ok (v :: vs, r2)
termination_by structural fuel

/-- After one array item: either a closing bracket or a comma and more
items. -/
def parseJsonArrMore (fuel : Nat) (l : List Char) :
    Except String (List JsonValue × List Char) :=
  match fuel with
  | 0 => .error "out of fuel"
  | fuel + 1 =>
      match dropJsonWs l with
      | c :: rest =>
          if c = ']' then .ok ([], rest)
          else if c = ',' then do
            let (v, r1) ← parseJsonValue fuel rest
            let (vs, r2) ← parseJsonArrMore fuel r1
            .ok (v :: vs, r2)
          else .error "expecting comma or bracket"
      | [] => .error "unterminated array"

termination_by structural fuel
end

/-- Model of Python `json.loads`: parse a complete JSON document, requiring
only whitespace after the value. -/
def jsonLoads (s : String) : Except String JsonValue := do
  let (v, rest) ← parseJsonValue (s.length + 1) s.data
  match dropJsonWs rest with
  | [] => .ok v
  | _ => .error "extra data"

/-! ### The two regex searches of `_parse_json_response`

`change_detector.py` uses two fixed patterns with `re.search` (leftmost
match, `re.DOTALL`):

  * ``` ```(?:json)?\s*(\{.*?\})\s*``` ``` — a fenced code block.  At a given
    start the match is deterministic: after the three backticks, a literal
    `json` is consumed when present (backtracking over `(?:json)?` or `\s*`
    can never rescue a failed match because the follow-up character classes
    are disjoint), whitespace is skipped, a `{` is required, and the
    non-greedy `.*?\}` picks the first closing brace whose suffix — after
    whitespace — is three backticks.
  * `\{[^{}]*\}` — the first `{` followed by brace-free text and a `}`.
-/

/-- Drop leading regex whitespace (`\s*`). -/
def dropPyWs : List Char → List Char
  | [] => []
  | c :: rest => if isPyWs c then dropPyWs rest else c :: rest

/-- Match three literal backticks, returning the rest. -/
def matchFence3 : List Char → Option (List Char)
  | b1 :: b2 :: b3 :: r =>
      if b1 = bq ∧ b2 = bq ∧ b3 = bq then some r else none
  | _ => none

/-- Consume an optional literal `json` tag (the `(?:json)?` group). -/
def dropJsonTag : List Char → List Char
  | 'j' :: 's' :: 'o' :: 'n' :: r => r
  | l => l

/-- After the opening brace of a fenced block, find the first closing brace
whose suffix (after whitespace) starts with three backticks; return the
content before that brace.  This is the non-greedy `.*?\}` followed by
`\s*` and the closing fence. -/
def findFenceClose : List Char → Option (List Char)
  | [] => none
  | c :: rest =>
      if c = rb ∧ (matchFence3 (dropPyWs rest)).isSome then some []
      else
        match findFenceClose rest with
        | some content => some (c :: content)
        | none => none

/-- Try to match the fenced-block pattern starting exactly at the head of the
list; on success return the captured group (braces included). -/
def matchFenceAt (l : List Char) : Option (List Char) :=
  match matchFence3 l with
  | none => none
  | some r =>
      match dropPyWs (dropJsonTag r) with
      | c :: rest =>
          if c = lb then
            match findFenceClose rest with
            | some content => some (lb :: content ++ [rb])
            | none => none
          else none
      | [] => none

/-- Leftmost search for the fenced-block pattern
(`re.search(r"```(?:json)?\s*(\{.*?\})\s*```", text, re.DOTALL)`),
returning the captured group. -/
def fencedSearchL : List Char → Option (List Char)
  | [] => none
  | c :: rest =>
      match matchFenceAt (c :: rest) with
      | some g => some g
      | none => fencedSearchL rest

/-- Scan brace-free content up to a closing brace (the `[^{}]*\}` part). -/
def scanBraceContent : List Char → Option (List Char)
  | [] => none
  | c :: rest =>
      if c = rb then some []
      else if c = lb then none
      else
        match scanBraceContent rest with
        | some content => some (c :: content)
        | none => none

/-- Leftmost search for `\{[^{}]*\}`, returning the whole match. -/
def braceSearchL : List Char → Option (List Char)
  | [] => none
  | c :: rest =>
      if c = lb then
        match scanBraceContent rest with
        | some content => some (lb :: content ++ [rb])
        | none => braceSearchL rest
      else braceSearchL rest

/-- String-level wrappers. -/
def fencedSearch (s : String) : Option String :=
  (fencedSearchL s.data).map (⟨·⟩)

/-- String-level wrapper for the brace-object search. -/
def braceSearch (s : String) : Option String :=
  (braceSearchL s.data).map (⟨·⟩)

/-- Model of `ChangeDetector._parse_json_response`:

  1. try `json.loads` on the whole text, swallowing only a decode error;
  2. otherwise, search for a fenced code block; if one is found, return the
     result of `json.loads` on its captured group — a decode error here is
     NOT swallowed, it propagates (the remaining strategy is skipped);
  3. otherwise, search for the first brace-delimited object; if found,
     return `json.loads` of it, again letting a decode error propagate;
  4. otherwise raise `ValueError`.

All of these errors are `(json.JSONDecodeError, ValueError)` and are caught
by `detect_changes`' fallback handler. -/
def parseJsonResponse (text : String) : Except String JsonValue :=
  match jsonLoads text with
  | .ok v => .ok v
  | .error _ =>
      match fencedSearch text with
      | some g => jsonLoads g
      | none =>
          match braceSearch text with
          | some g => jsonLoads g
          | none =>
              .error ("Could not extract JSON from response: " ++ text.take 200)

/-! ### Python semantics helpers used by `detect_changes` -/

/-- Python truthiness of a JSON-shaped value (`bool(x)`). -/
def pyTruthy : JsonValue → Bool
  | .null => false
  | .bool b => b
  | .num q => q ≠ 0
  | .str s => s ≠ ""
  | .arr l => !l.isEmpty
  | .obj l => !l.isEmpty

/-- Python `result.get(key, default)`: dict lookup with default; on a
non-dict value, attribute lookup of `get` raises `AttributeError` (which no
handler in `detect_changes` catches). -/
def pyGet (v : JsonValue) (key : String) (dflt : JsonValue) :
    Except String JsonValue :=
  match v with
  | .obj fs => .ok ((objGet fs key).getD dflt)
  | _ => .error "AttributeError: object has no attribute get"

/-- Python `float(str)` literal grammar (whitespace-stripped, optional sign,
digits with optional fraction and exponent; at least one digit).  The
special words `inf`/`nan` and digit underscores are not modelled — no code
path of this repository produces them. -/
def parseFloatStr (s : String) : Option Rat :=
  let l := ((s.data.dropWhile isPyWs).reverse.dropWhile isPyWs).reverse
  let (neg, l1) :=
    match l with
    | c :: r =>
        if c = '-' then (true, r)
        else if c = '+' then (false, r)
        else (false, c :: r)
    | [] => (false, ([] : List Char))
  let (ip, l2) := takeDigits l1
  let (fp, l3) :=
    match l2 with
    | c :: r => if c = '.' then takeDigits r else (([] : List Char), c :: r)
    | [] => (([] : List Char), ([] : List Char))
  if ip.isEmpty ∧ fp.isEmpty then none
  else
    match l3 with
    | [] => some (assembleRat neg (digitsVal 0 ip) (digitsVal 0 fp) fp.length false 0)
    | c :: r =>
        if c = 'e' ∨ c = 'E' then
          let (eneg, r1) :=
            match r with
            | '-' :: rr => (true, rr)
            | '+' :: rr => (false, rr)
            | rr => (false, rr)
          match takeDigits r1 with
          | ([], _) => none
          | (ds, rest) =>
              if rest.isEmpty then
                some (assembleRat neg (digitsVal 0 ip) (digitsVal 0 fp)
                  fp.length eneg (digitsVal 0 ds))
              else none
        else none

/-- Python `float(x)` applied to a JSON-shaped value: numbers pass through,
booleans become 0/1, strings are parsed (`ValueError` on failure), anything
else is a `TypeError`.  Both exceptions propagate out of `detect_changes`
(the `float(...)` call sits after the parse-fallback `try/except`). -/
def pyFloat : JsonValue → Except String Rat
  | .num q => .ok q
  | .bool b => .ok (if b then 1 else 0)
  | .str s =>
      match parseFloatStr s with
      | some q => .ok q
      | none => .error "ValueError: could not convert string to float"
  | .null => .error "TypeError: float() argument must not be None"
  | .arr _ => .error "TypeError: float() argument must be a string or a number"
  | .obj _ => .error "TypeError: float() argument must be a string or a number"

/-- ASCII lowercase of a character. -/
def lowerCh (c : Char) : Char :=
  if 'A' ≤ c ∧ c ≤ 'Z' then Char.ofNat (c.toNat + 32) else c

/-- ASCII lowercase of a string (the values pydantic compares against are
all ASCII). -/
def asciiLower (s : String) : String := ⟨s.data.map lowerCh⟩

/-- Pydantic v2 lax-mode coercion to `bool` (for the `is_significant`
field): booleans, the numbers 0/1, and the usual yes/no word strings
(case-insensitive). -/
def pydanticLaxBool : JsonValue → Except String Bool
  | .bool b => .ok b
  | .num q =>
      if q = 0 then .ok false
      else if q = 1 then .ok true
      else .error "validation error: is_significant must be a valid boolean"
  | .str s =>
      let t := asciiLower s
      if t = "true" ∨ t = "t" ∨ t = "yes" ∨ t = "y" ∨ t = "on" ∨ t = "1" then
        .ok true
      else if t = "false" ∨ t = "f" ∨ t = "no" ∨ t = "n" ∨ t = "off" ∨ t = "0" then
        .ok false
      else .error "validation error: is_significant must be a valid boolean"
  | _ => .error "validation error: is_significant must be a valid boolean"

/-- Pydantic v2 coercion to `str` (lax mode does not stringify non-strings;
only actual strings validate). -/
def pydanticStr : JsonValue → Except String String
  | .str s => .ok s
  | _ => .error "validation error: input should be a valid string"

/-! ### Datetimes

Python `datetime` values as calendar fields plus an optional UTC offset in
minutes (`none` = naive).  Python's `datetime` constructor enforces the
field ranges captured by `validDateTime` below, so every datetime the
pipeline handles satisfies it. -/

structure DateTime where
  year : Nat
  month : Nat
  day : Nat
  hour : Nat
  minute : Nat
  second : Nat
  microsecond : Nat
  tzOffsetMinutes : Option Int
deriving DecidableEq

/-- Field ranges guaranteed by Python's `datetime` type. -/
def validDateTime (dt : DateTime) : Prop :=
  1 ≤ dt.year ∧ dt.year ≤ 9999 ∧ 1 ≤ dt.month ∧ dt.month ≤ 12 ∧
  1 ≤ dt.day ∧ dt.day ≤ 31 ∧ dt.hour ≤ 23 ∧ dt.minute ≤ 59 ∧
  dt.second ≤ 59 ∧ dt.microsecond ≤ 999999 ∧
  (∀ off ∈ dt.tzOffsetMinutes, off.natAbs ≤ 1439)

instance (dt : DateTime) : Decidable (validDateTime dt) := by
  unfold validDateTime; infer_instance

/-- Two fixed-width decimal digits. -/
def pad2 (n : Nat) : List Char := [dChar (n / 10 % 10), dChar (n % 10)]

/-- Four fixed-width decimal digits. -/
def pad4 (n : Nat) : List Char :=
  [dChar (n / 1000 % 10), dChar (n / 100 % 10), dChar (n / 10 % 10),
   dChar (n % 10)]

/-- Six fixed-width decimal digits. -/
def pad6 (n : Nat) : List Char :=
  [dChar (n / 100000 % 10), dChar (n / 10000 % 10), dChar (n / 1000 % 10),
   dChar (n / 100 % 10), dChar (n / 10 % 10), dChar (n % 10)]

/-- `datetime.strftime("%Y-%m-%dT%H-%M-%S")`, used for snapshot ids
(`models.py`) and storage filenames (`storage.py`). -/
def strftimeTs (dt : DateTime) : String :=
  ⟨pad4 dt.year ++ '-' :: (pad2 dt.month ++ '-' :: (pad2 dt.day ++
    'T' :: (pad2 dt.hour ++ '-' :: (pad2 dt.minute ++ '-' ::
    pad2 dt.second))))⟩

/-- Fractional-seconds rendering: omitted when zero, else `.` and six
digits. -/
def fracRender (mu : Nat) : List Char :=
  if mu = 0 then [] else '.' :: pad6 mu

/-- Timezone suffix rendering: nothing for naive, `Z` for UTC, `±HH:MM`
otherwise. -/
def tzRender : Option Int → List Char
  | none => []
  | some off =>
      if off = 0 then ['Z']
      else
        (if off < 0 then '-' else '+') ::
          (pad2 (off.natAbs / 60) ++ ':' :: pad2 (off.natAbs % 60))

/-- ISO-8601 rendering as produced by pydantic v2 JSON serialization:
`YYYY-MM-DDTHH:MM:SS`, fractional seconds only when nonzero, `Z` for a zero
UTC offset, `±HH:MM` otherwise, nothing for a naive datetime. -/
def isoRenderL (dt : DateTime) : List Char :=
  pad4 dt.year ++ '-' :: (pad2 dt.month ++ '-' :: (pad2 dt.day ++
    'T' :: (pad2 dt.hour ++ ':' :: (pad2 dt.minute ++ ':' ::
    (pad2 dt.second ++ fracRender dt.microsecond ++
      tzRender dt.tzOffsetMinutes)))))

/-- String-level ISO rendering. -/
def isoRender (dt : DateTime) : String := ⟨isoRenderL dt⟩

/-- Parse exactly two digits. -/
def parse2L : List Char → Option (Nat × List Char)
  | a :: b :: r =>
      if a.isDigit && b.isDigit then some (dVal a * 10 + dVal b, r) else none
  | _ => none

/-- Parse exactly four digits. -/
def parse4L : List Char → Option (Nat × List Char)
  | a :: b :: c :: d :: r =>
      if a.isDigit && b.isDigit && c.isDigit && d.isDigit then
        some (((dVal a * 10 + dVal b) * 10 + dVal c) * 10 + dVal d, r)
      else none
  | _ => none

/-- Parse exactly six digits. -/
def parse6L : List Char → Option (Nat × List Char)
  | a :: b :: c :: d :: e :: f :: r =>
      if a.isDigit && b.isDigit && c.isDigit && d.isDigit && e.isDigit &&
          f.isDigit then
        some (((((dVal a * 10 + dVal b) * 10 + dVal c) * 10 + dVal d) * 10 +
          dVal e) * 10 + dVal f, r)
      else none
  | _ => none

/-- Expect one literal character. -/
def expectCh (c : Char) : List Char → Option (List Char)
  | x :: r => if x = c then some r else none
  | [] => none

/-- Parse a `HH:MM` offset body, in minutes. -/
def parseOffHM (l : List Char) : Option (Nat × List Char) := do
  let (hh, l1) ← parse2L l
  let l2 ← expectCh ':' l1
  let (mm, l3) ← parse2L l2
  some (hh * 60 + mm, l3)

/-- Parse the timezone suffix: nothing (naive), `Z`, or `±HH:MM`. -/
def parseTzPart : List Char → Option (Option Int × List Char)
  | [] => some (none, [])
  | 'Z' :: r => some (some 0, r)
  | '+' :: r => (parseOffHM r).map (fun p => (some (p.1 : Int), p.2))
  | '-' :: r => (parseOffHM r).map (fun p => (some (-(p.1 : Int)), p.2))
  | _ => none

/-- Parse the optional fractional-seconds part (microseconds). -/
def parseFracPart : List Char → Option (Nat × List Char)
  | '.' :: r => parse6L r
  | l => some (0, l)

/-- Parse `HH:MM:SS`. -/
def parseHMS (l : List Char) : Option ((Nat × Nat × Nat) × List Char) := do
  let (h, l1) ← parse2L l
  let l2 ← expectCh ':' l1
  let (mi, l3) ← parse2L l2
  let l4 ← expectCh ':' l3
  let (s, l5) ← parse2L l4
  some ((h, mi, s), l5)

/-- Parse `YYYY-MM-DD`. -/
def parseYMD (l : List Char) : Option ((Nat × Nat × Nat) × List Char) := do
  let (y, l1) ← parse4L l
  let l2 ← expectCh '-' l1
  let (mo, l3) ← parse2L l2
  let l4 ← expectCh '-' l3
  let (d, l5) ← parse2L l4
  some ((y, mo, d), l5)

/-- ISO-8601 datetime parsing as done by pydantic validation of a `datetime`
field from a JSON string, with the calendar range checks. -/
def isoParseL (l : List Char) : Option DateTime := do
  let (ymd, l1) ← parseYMD l
  let l2 ← expectCh 'T' l1
  let (hms, l3) ← parseHMS l2
  let (μ, l4) ← parseFracPart l3
  let (tz, l5) ← parseTzPart l4
  let dt : DateTime :=
    ⟨ymd.1, ymd.2.1, ymd.2.2, hms.1, hms.2.1, hms.2.2, μ, tz⟩
  if l5 = [] ∧ validDateTime dt then some dt else none

/-- String-level ISO parsing. -/
def isoParse (s : String) : Option DateTime := isoParseL s.data

/-! ### Data model (`models.py`)

`NewsArticle`, `NewsSnapshot` and `ChangeReport` with the pydantic
behaviours their call sites rely on: `NewsSnapshot.model_post_init` deriving
the snapshot id from the fetch time, and `ChangeReport`'s field validation
(`significance_score` constrained to `[0, 1]`, `previous_snapshot_id` a
required `str`, lax coercions for `is_significant` / `change_summary`). -/

structure NewsArticle where
  url : String
  title : String
  summary : String
  full_text : Option String
  published_date : Option DateTime
  source : String
  relevance_score : Option Rat
deriving DecidableEq

structure NewsSnapshot where
  question_id : Int
  fetched_at : DateTime
  articles : List NewsArticle
  search_query : String
  snapshot_id : String
deriving DecidableEq

/-- Construct a `NewsSnapshot` the way Python code does: the `snapshot_id`
keyword defaults to `""` and `model_post_init` replaces an empty id by
`fetched_at.strftime("%Y-%m-%dT%H-%M-%S")`. -/
def mkNewsSnapshot (question_id : Int) (fetched_at : DateTime)
    (articles : List NewsArticle) (search_query : String)
    (snapshot_id : String := "") : NewsSnapshot :=
  { question_id, fetched_at, articles, search_query,
    snapshot_id :=
      if snapshot_id = "" then strftimeTs fetched_at else snapshot_id }

structure ChangeReport where
  question_id : Int
  detected_at : DateTime
  previous_snapshot_id : String
  current_snapshot_id : String
  change_summary : String
  significance_score : Rat
  is_significant : Bool
  new_articles : List NewsArticle
deriving DecidableEq

/-- Construct a `ChangeReport` the way the Python constructor call does,
running pydantic validation: `previous_snapshot_id` is a required `str`
(passing `None` raises), `change_summary` must be a string,
`significance_score` carries `Field(ge=0.0, le=1.0)`, and `is_significant`
is coerced to `bool` in lax mode.  Any failure raises a `ValidationError`,
modelled as `Except.error`. -/
def mkChangeReport (question_id : Int) (detected_at : DateTime)
    (previous_snapshot_id : Option String) (current_snapshot_id : String)
    (change_summary : JsonValue) (significance_score : Rat)
    (is_significant : JsonValue) (new_articles : List NewsArticle) :
    Except String ChangeReport := do
  let prevId ←
    match previous_snapshot_id with
    | some s => Except.ok s
    | none =>
        Except.error
          "validation error: previous_snapshot_id should be a valid string"
  let summary ← pydanticStr change_summary
  if 0 ≤ significance_score ∧ significance_score ≤ 1 then do
    let sig ← pydanticLaxBool is_significant
    Except.ok
      { question_id, detected_at, previous_snapshot_id := prevId,
        current_snapshot_id, change_summary := summary, significance_score,
        is_significant := sig, new_articles }
  else Except.error "validation error: significance_score out of range"

/-- The question fields the merge/classify pipeline reads (the rest of
`QuestionMetadata` only feeds the prompt sent to the external service). -/
structure QuestionMetadata where
  question_id : Int
  title : String
  resolution_criteria : String

/-! ### News aggregation (`news_aggregator.py`) -/

/-- Membership of a URL in a collected URL set, modelled on the list of
URLs (Python builds `{a.url for a in ...}` and tests `in`). -/
def urlMem (u : String) (urls : List String) : Bool :=
  urls.any (fun v => v == u)

/-- URLs of a snapshot's articles, in order. -/
def snapshotUrls (s : NewsSnapshot) : List String :=
  s.articles.map (·.url)

/-- Model of `NewsAggregator.merge_with_previous`: no previous snapshot
means the new snapshot is returned unchanged; otherwise the genuinely new
articles (URL not among the previous snapshot's URLs) are prepended to the
entire previous list, the result truncated to `max_articles`, and a fresh
snapshot is built from `new_snapshot`'s question id, fetch time and search
query. -/
def merge_with_previous (new_snapshot : NewsSnapshot)
    (previous_snapshot : Option NewsSnapshot)
    (max_articles : Nat := 50) : NewsSnapshot :=
  match previous_snapshot with
  | none => new_snapshot
  | some prev =>
      let existing_urls := snapshotUrls prev
      let new_articles :=
        new_snapshot.articles.filter (fun a => !(urlMem a.url existing_urls))
      let combined := (new_articles ++ prev.articles).take max_articles
      mkNewsSnapshot new_snapshot.question_id new_snapshot.fetched_at
        combined new_snapshot.search_query

/-- Model of `NewsAggregator.get_new_articles`. -/
def get_new_articles (current_snapshot : NewsSnapshot)
    (previous_snapshot : Option NewsSnapshot) : List NewsArticle :=
  match previous_snapshot with
  | none => current_snapshot.articles
  | some prev =>
      let previous_urls := snapshotUrls prev
      current_snapshot.articles.filter (fun a => !(urlMem a.url previous_urls))

/-! ### Change detection (`change_detector.py`)

`detect_changes` is embedded with the external text-generation reply as an
explicit argument `llmReply` (the single suspending call of the component);
`now` stands for `datetime.now(timezone.utc)`.  A raised Python exception is
`Except.error`. -/

structure ChangeDetector where
  significance_threshold : Rat

/-- The hard-coded fallback classification used when the reply cannot be
parsed. -/
def fallbackResult (numNew : Nat) : JsonValue :=
  .obj [("SIGNIFICANCE_SCORE", .num (mkRat 1 2)),
        ("IS_SIGNIFICANT", .bool true),
        ("CHANGE_SUMMARY",
          .str ("New articles found but analysis failed: " ++
            toString numNew ++ " new article(s)"))]

/-- The reply text actually parsed: `response.choices[0].message.content or
"{}"` (an empty or missing reply falls back to `"{}"`). -/
def resultTextOf (reply : String) : String :=
  if reply = "" then "\x7b\x7d" else reply

/-- The classification object after the `try/except` around
`_parse_json_response`: the parsed reply, or on any parse error the fallback
object recording the number of genuinely new articles. -/
def parsedResult (reply : String) (numNew : Nat) : JsonValue :=
  match parseJsonResponse (resultTextOf reply) with
  | .ok v => v
  | .error _ => fallbackResult numNew

/-- Model of `ChangeDetector.detect_changes`. -/
def ChangeDetector.detect_changes (cd : ChangeDetector)
    (question : QuestionMetadata)
    (previous_snapshot current_snapshot : NewsSnapshot)
    (now : DateTime) (llmReply : String) : Except String ChangeReport :=
  let previous_urls := snapshotUrls previous_snapshot
  let new_articles :=
    current_snapshot.articles.filter (fun a => !(urlMem a.url previous_urls))
  if new_articles.isEmpty then
    mkChangeReport question.question_id now
      (some previous_snapshot.snapshot_id) current_snapshot.snapshot_id
      (.str "No new articles found since last check.") 0 (.bool false) []
  else do
    let result := parsedResult llmReply new_articles.length
    let scoreVal ← pyGet result "SIGNIFICANCE_SCORE" (.num 0)
    let significance_score ← pyFloat scoreVal
    let flagVal ← pyGet result "IS_SIGNIFICANT" (.bool false)
    let isSigVal : JsonValue :=
      if pyTruthy flagVal then flagVal
      else .bool (significance_score > cd.significance_threshold)
    let summaryVal ← pyGet result "CHANGE_SUMMARY" (.str "No summary available.")
    mkChangeReport question.question_id now
      (some previous_snapshot.snapshot_id) current_snapshot.snapshot_id
      summaryVal significance_score isSigVal new_articles

/-! ### Orchestration (`run.py`) -/

structure NewsUpdate where
  question : QuestionMetadata
  news_snapshot : NewsSnapshot
  change_report : Option ChangeReport

/-- Model of `process_question`, with the external collaborators made
explicit: `previousNews` is what `storage.load_latest_news` returned,
`fetchedNews` what `news_agg.fetch_news_for_question` returned, `llmReply`
the text-generation reply.  The function body sits in a `try/except` that
turns any raised exception into `None`; the storage writes are external
effects with no bearing on the returned value. -/
def process_question (cd : ChangeDetector) (question : QuestionMetadata)
    (previousNews : Option NewsSnapshot) (fetchedNews : NewsSnapshot)
    (now : DateTime) (llmReply : String) : Option NewsUpdate :=
  let merged := merge_with_previous fetchedNews previousNews 50
  match previousNews with
  | some prev =>
      match cd.detect_changes question prev merged now llmReply with
      | .ok report => some ⟨question, merged, some report⟩
      | .error _ => none
  | none =>
      if merged.articles.isEmpty then some ⟨question, merged, none⟩
      else
        match
          mkChangeReport question.question_id now none merged.snapshot_id
            (.str ("First news aggregation: found " ++
              toString merged.articles.length ++ " relevant article(s)."))
            1 (.bool true) merged.articles with
        | .ok report => some ⟨question, merged, some report⟩
        | .error _ => none

/-! ### Storage round trip (`storage.py`)

`Storage._save_model` writes `model.model_dump_json(...)`;
`Storage._load_model` reads the file with `json.load` and calls
`model_class.model_validate(data)`.  The text layer in between is the
Python standard `json` module writing and re-reading the dumped tree, so the
round trip is modelled at the JSON-value level: `dumpSnapshot` is the
pydantic field-by-field dump (datetimes ISO-rendered, `None` as `null`) and
`validateNewsSnapshot` the pydantic validation of the loaded tree,
including `model_post_init`. -/

/-- Validate a required `str` field. -/
def vStr : Option JsonValue → Except String String
  | some (.str s) => .ok s
  | _ => .error "validation error: input should be a valid string"

/-- Validate a required `int` field. -/
def vInt : Option JsonValue → Except String Int
  | some (.num q) =>
      if q.den = 1 then .ok q.num
      else .error "validation error: input should be a valid integer"
  | _ => .error "validation error: input should be a valid integer"

/-- Validate an `Optional[str]` field defaulting to `None`. -/
def vOptStr : Option JsonValue → Except String (Option String)
  | none => .ok none
  | some .null => .ok none
  | some (.str s) => .ok (some s)
  | some _ => .error "validation error: input should be a valid string"

/-- Validate a required `datetime` field given as an ISO string. -/
def vDatetime : Option JsonValue → Except String DateTime
  | some (.str s) =>
      match isoParse s with
      | some dt => .ok dt
      | none => .error "validation error: input should be a valid datetime"
  | _ => .error "validation error: input should be a valid datetime"

/-- Validate an `Optional[datetime]` field defaulting to `None`. -/
def vOptDatetime : Option JsonValue → Except String (Option DateTime)
  | none => .ok none
  | some .null => .ok none
  | some (.str s) =>
      match isoParse s with
      | some dt => .ok (some dt)
      | none => .error "validation error: input should be a valid datetime"
  | some _ => .error "validation error: input should be a valid datetime"

/-- Validate an `Optional[float]` field defaulting to `None`. -/
def vOptFloat : Option JsonValue → Except String (Option Rat)
  | none => .ok none
  | some .null => .ok none
  | some (.num q) => .ok (some q)
  | some _ => .error "validation error: input should be a valid number"

/-- Pydantic dump of a `NewsArticle` (all fields serialized, `None` as
`null`, datetimes as ISO strings). -/
def dumpArticle (a : NewsArticle) : JsonValue :=
  .obj [("url", .str a.url), ("title", .str a.title),
        ("summary", .str a.summary),
        ("full_text",
          match a.full_text with | none => .null | some t => .str t),
        ("published_date",
          match a.published_date with
          | none => .null | some d => .str (isoRender d)),
        ("source", .str a.source),
        ("relevance_score",
          match a.relevance_score with | none => .null | some q => .num q)]

/-- Pydantic dump of a `NewsSnapshot`. -/
def dumpSnapshot (s : NewsSnapshot) : JsonValue :=
  .obj [("question_id", .num (s.question_id : Rat)),
        ("fetched_at", .str (isoRender s.fetched_at)),
        ("articles", .arr (s.articles.map dumpArticle)),
        ("search_query", .str s.search_query),
        ("snapshot_id", .str s.snapshot_id)]

/-- Pydantic validation of a `NewsArticle` from a JSON tree. -/
def validateArticle (j : JsonValue) : Except String NewsArticle :=
  match j with
  | .obj fs => do
      let url ← vStr (objGet fs "url")
      let title ← vStr (objGet fs "title")
      let summary ← vStr (objGet fs "summary")
      let full_text ← vOptStr (objGet fs "full_text")
      let published_date ← vOptDatetime (objGet fs "published_date")
      let source ← vStr (objGet fs "source")
      let relevance_score ← vOptFloat (objGet fs "relevance_score")
      .ok ⟨url, title, summary, full_text, published_date, source,
        relevance_score⟩
  | _ => .error "validation error: input should be an object"

/-- Pydantic validation of a `NewsSnapshot` from a JSON tree (then
`model_post_init`, which replaces an empty `snapshot_id`). -/
def validateNewsSnapshot (j : JsonValue) : Except String NewsSnapshot :=
  match j with
  | .obj fs => do
      let qid ← vInt (objGet fs "question_id")
      let fetched ← vDatetime (objGet fs "fetched_at")
      let arts ←
        match objGet fs "articles" with
        | some (.arr items) => items.mapM validateArticle
        | _ => Except.error "validation error: input should be a valid list"
      let query ← vStr (objGet fs "search_query")
      let sid ←
        match objGet fs "snapshot_id" with
        | none => Except.ok ""
        | some v => pydanticStr v
      .ok (mkNewsSnapshot qid fetched arts query sid)
  | _ => .error "validation error: input should be an object"

/-- Validity of an article: Python `datetime` field invariants. -/
def validArticle (a : NewsArticle) : Prop :=
  ∀ d ∈ a.published_date, validDateTime d

instance (a : NewsArticle) : Decidable (validArticle a) := by
  unfold validArticle; infer_instance

/-- Validity of a snapshot as produced by this pipeline: real datetimes and
a non-empty snapshot id (`model_post_init` never leaves it empty). -/
def validSnapshot (s : NewsSnapshot) : Prop :=
  validDateTime s.fetched_at ∧ s.snapshot_id ≠ "" ∧
    ∀ a ∈ s.articles, validArticle a

instance (s : NewsSnapshot) : Decidable (validSnapshot s) := by
  unfold validSnapshot; infer_instance

/-! ### Concrete fixtures used by witnesses and counterexamples -/

/-- Article with a given URL. -/
def exArt (u : String) : NewsArticle :=
  ⟨u, "title " ++ u, "summary", none, none, "example.com", none⟩

/-- A UTC timestamp. -/
def exDT : DateTime := ⟨2025, 10, 12, 8, 30, 5, 0, some 0⟩

/-- A question. -/
def exQuestion : QuestionMetadata := ⟨101, "Example question", "criteria"⟩

/-- A detector with the source default threshold 0.3. -/
def exDetector : ChangeDetector := ⟨mkRat 3 10⟩

/-- Previous snapshot with URLs A, B. -/
def exPrev : NewsSnapshot := mkNewsSnapshot 101 exDT [exArt "A", exArt "B"] "query"

/-- Current fetch with URLs B, C. -/
def exCur : NewsSnapshot := mkNewsSnapshot 101 exDT [exArt "B", exArt "C"] "query"

/-- A fetch of three articles. -/
def exFetch3 : NewsSnapshot :=
  mkNewsSnapshot 101 exDT [exArt "A", exArt "B", exArt "C"] "query"

/-- A fetch whose URLs are all already in `exPrev`. -/
def exSub : NewsSnapshot := mkNewsSnapshot 101 exDT [exArt "A"] "query"

/-- A fetch containing a duplicated URL within the batch. -/
def exDupNew : NewsSnapshot :=
  mkNewsSnapshot 101 exDT [exArt "X", exArt "X"] "query"

/-- A well-formed classification reply (score 0.7, explicit boolean flag). -/
def exReplyOk : String :=
  "\x7b\"SIGNIFICANCE_SCORE\": 0.7, \"IS_SIGNIFICANT\": false, \"CHANGE_SUMMARY\": \"meh\"\x7d"

/-- The report `detect_changes` produces for `exReplyOk` on
`exPrev`/`exCur` (score 0.7 forces significance past the 0.3 threshold). -/
def exReportOk : ChangeReport :=
  ⟨101, exDT, "2025-10-12T08-30-05", "2025-10-12T08-30-05", "meh",
    mkRat 7 10, true, [exArt "C"]⟩

/-- A reply whose significance flag is the *string* `"false"` — truthy in
Python, coerced to `False` by pydantic's lax bool validation. -/
def exReplyStringFlag : String :=
  "\x7b\"SIGNIFICANCE_SCORE\": 0.9, \"IS_SIGNIFICANT\": \"false\", \"CHANGE_SUMMARY\": \"x\"\x7d"

/-- A reply whose score field is a string that `float()` rejects. -/
def exReplyBadScore : String :=
  "\x7b\"SIGNIFICANCE_SCORE\": \"abc\"\x7d"

/-- A reply whose score parses but lies outside `[0, 1]`. -/
def exReplyBigScore : String :=
  "\x7b\"SIGNIFICANCE_SCORE\": 1.5\x7d"

/-- The parsed tree of `exReplyBadScore`. -/
def exBadScoreVal : JsonValue := .obj [("SIGNIFICANCE_SCORE", .str "abc")]

/-- The parsed tree of `exReplyBigScore` (score 1.5, assembled the way the
number parser does). -/
def exBigScoreVal : JsonValue :=
  .obj [("SIGNIFICANCE_SCORE", .num (assembleRat false 1 5 1 false 0))]

/-- Reply text for the parse-cascade counterexample: a fenced block whose
captured group `\x7b \x7b\x7d` is not valid JSON, followed by a perfectly
parsable brace-delimited object `\x7b\x7d`. -/
def exCascadeText : String := "```\x7b \x7b\x7d ``` \x7b\x7d"

/-- Decidable equality for `Except`, so that concrete pipeline runs can be
checked by the kernel. -/
instance exceptDecEq {ε α : Type} [DecidableEq ε] [DecidableEq α] :
    DecidableEq (Except ε α)
  | .ok a, .ok b =>
      if h : a = b then .isTrue (by rw [h]) else .isFalse (by simp [h])
  | .error a, .error b =>
      if h : a = b then .isTrue (by rw [h]) else .isFalse (by simp [h])
  | .ok _, .error _ => .isFalse (by simp)
  | .error _, .ok _ => .isFalse (by simp)

/-! ### Helper lemmas -/

/-- Bind on `Except` succeeds exactly when both stages succeed. -/
theorem exceptBind_ok {α β : Type} {x : Except String α}
    {f : α → Except String β} {b : β} :
    (x >>= f) = .ok b ↔ ∃ a, x = .ok a ∧ f a = .ok b := by
  cases x <;> simp [Bind.bind, Except.bind]

/-- Bind on `Except` propagates a failing first stage. -/
theorem exceptBind_err {α β : Type} {x : Except String α}
    {f : α → Except String β} {e : String} (h : x = .error e) :
    (x >>= f) = .error e := by
  subst h; rfl

/-- URL membership test agrees with list membership. -/
theorem urlMem_iff {u : String} {l : List String} :
    urlMem u l = true ↔ u ∈ l := by
  simp [urlMem, List.any_eq_true, beq_iff_eq]

/-- URL membership as a `decide`. -/
theorem urlMem_eq_decide (u : String) (l : List String) :
    urlMem u l = decide (u ∈ l) := by
  by_cases h : u ∈ l
  · rw [decide_eq_true h]
    exact urlMem_iff.mpr h
  · rw [decide_eq_false h]
    exact Bool.eq_false_iff.mpr fun hc => h (urlMem_iff.mp hc)

/-- Digit characters round-trip through `dVal`. -/
theorem dVal_dChar {d : Nat} (h : d < 10) : dVal (dChar d) = d := by
  interval_cases d <;> rfl

/-- Digit characters satisfy `Char.isDigit`. -/
theorem isDigit_dChar {d : Nat} (h : d < 10) : (dChar d).isDigit = true := by
  interval_cases d <;> rfl

/-- Two-digit fixed-width rendering parses back. -/
theorem parse2L_pad2 {n : Nat} (h : n < 100) (r : List Char) :
    parse2L (pad2 n ++ r) = some (n, r) := by
  have h1 : n / 10 % 10 < 10 := Nat.mod_lt _ (by norm_num)
  have h2 : n % 10 < 10 := Nat.mod_lt _ (by norm_num)
  simp only [pad2, List.cons_append, List.nil_append, parse2L,
    isDigit_dChar h1, isDigit_dChar h2, Bool.and_self, if_true,
    dVal_dChar h1, dVal_dChar h2, Option.some.injEq, Prod.mk.injEq]
  exact ⟨by omega, trivial⟩

/-- Four-digit fixed-width rendering parses back. -/
theorem parse4L_pad4 {n : Nat} (h : n < 10000) (r : List Char) :
    parse4L (pad4 n ++ r) = some (n, r) := by
  have h1 : n / 1000 % 10 < 10 := Nat.mod_lt _ (by norm_num)
  have h2 : n / 100 % 10 < 10 := Nat.mod_lt _ (by norm_num)
  have h3 : n / 10 % 10 < 10 := Nat.mod_lt _ (by norm_num)
  have h4 : n % 10 < 10 := Nat.mod_lt _ (by norm_num)
  simp only [pad4, List.cons_append, List.nil_append, parse4L,
    isDigit_dChar h1, isDigit_dChar h2, isDigit_dChar h3, isDigit_dChar h4,
    Bool.and_self, if_true, dVal_dChar h1, dVal_dChar h2, dVal_dChar h3,
    dVal_dChar h4, Option.some.injEq, Prod.mk.injEq]
  exact ⟨by omega, trivial⟩

/-- Six-digit fixed-width rendering parses back. -/
theorem parse6L_pad6 {n : Nat} (h : n < 1000000) (r : List Char) :
    parse6L (pad6 n ++ r) = some (n, r) := by
  have h1 : n / 100000 % 10 < 10 := Nat.mod_lt _ (by norm_num)
  have h2 : n / 10000 % 10 < 10 := Nat.mod_lt _ (by norm_num)
  have h3 : n / 1000 % 10 < 10 := Nat.mod_lt _ (by norm_num)
  have h4 : n / 100 % 10 < 10 := Nat.mod_lt _ (by norm_num)
  have h5 : n / 10 % 10 < 10 := Nat.mod_lt _ (by norm_num)
  have h6 : n % 10 < 10 := Nat.mod_lt _ (by norm_num)
  simp only [pad6, List.cons_append, List.nil_append, parse6L,
    isDigit_dChar h1, isDigit_dChar h2, isDigit_dChar h3, isDigit_dChar h4,
    isDigit_dChar h5, isDigit_dChar h6, Bool.and_self, if_true,
    dVal_dChar h1, dVal_dChar h2, dVal_dChar h3, dVal_dChar h4,
    dVal_dChar h5, dVal_dChar h6, Option.some.injEq, Prod.mk.injEq]
  exact ⟨by omega, trivial⟩

/-- Expecting the character that is present. -/
theorem expectCh_cons (c : Char) (r : List Char) :
    expectCh c (c :: r) = some r := by
  simp [expectCh]

/-- The rendered `YYYY-MM-DD` prefix parses back. -/
theorem parseYMD_pads {y mo d : Nat} (hy : y < 10000) (hmo : mo < 100)
    (hd : d < 100) (r : List Char) :
    parseYMD (pad4 y ++ '-' :: (pad2 mo ++ '-' :: (pad2 d ++ r))) =
      some ((y, mo, d), r) := by
  unfold parseYMD
  simp only [parse4L_pad4 hy, Option.bind_eq_bind, Option.some_bind,
    expectCh_cons, parse2L_pad2 hmo, parse2L_pad2 hd]

/-- The rendered `HH:MM:SS` part parses back. -/
theorem parseHMS_pads {h mi s : Nat} (hh : h < 100) (hmi : mi < 100)
    (hs : s < 100) (r : List Char) :
    parseHMS (pad2 h ++ ':' :: (pad2 mi ++ ':' :: (pad2 s ++ r))) =
      some ((h, mi, s), r) := by
  unfold parseHMS
  simp only [parse2L_pad2 hh, Option.bind_eq_bind, Option.some_bind,
    expectCh_cons, parse2L_pad2 hmi, parse2L_pad2 hs]

/-- The rendered `HH:MM` offset body parses back. -/
theorem parseOffHM_pads {a : Nat} (ha : a < 1440) :
    parseOffHM (pad2 (a / 60) ++ ':' :: pad2 (a % 60)) = some (a, []) := by
  have h1 : a / 60 < 100 := by omega
  have h2 : a % 60 < 100 := by omega
  have hsh : pad2 (a % 60) = pad2 (a % 60) ++ [] := (List.append_nil _).symm
  unfold parseOffHM
  rw [hsh]
  simp only [parse2L_pad2 h1, Option.bind_eq_bind, Option.some_bind,
    expectCh_cons, parse2L_pad2 h2, Option.some.injEq, Prod.mk.injEq]
  exact ⟨by omega, trivial⟩

/-- The rendered timezone suffix parses back. -/
theorem parseTzPart_render (tz : Option Int)
    (htz : ∀ off ∈ tz, off.natAbs ≤ 1439) :
    parseTzPart (tzRender tz) = some (tz, []) := by
  rcases tz with _ | off
  · rfl
  · have ha : off.natAbs < 1440 := by
      have := htz off rfl
      omega
    by_cases h0 : off = 0
    · subst h0; rfl
    · rw [tzRender, if_neg h0]
      by_cases hneg : off < 0
      · rw [if_pos hneg]
        show (parseOffHM _).map _ = _
        rw [parseOffHM_pads ha]
        have habs : -((off.natAbs : Nat) : Int) = off := by omega
        simp only [Option.map_some', habs]
      · rw [if_neg hneg]
        show (parseOffHM _).map _ = _
        rw [parseOffHM_pads ha]
        have habs : ((off.natAbs : Nat) : Int) = off := by omega
        simp only [Option.map_some', habs]

/-- The rendered fractional-seconds part parses back, whatever the timezone
suffix is. -/
theorem parseFracPart_render {mu : Nat} (hmu : mu < 1000000)
    (tz : Option Int) :
    parseFracPart (fracRender mu ++ tzRender tz) =
      some (mu, tzRender tz) := by
  by_cases hz : mu = 0
  · subst hz
    rw [fracRender, if_pos rfl, List.nil_append]
    rcases tz with _ | off
    · rfl
    · by_cases h0 : off = 0
      · subst h0; rfl
      · rw [tzRender, if_neg h0]
        by_cases hneg : off < 0
        · rw [if_pos hneg]; rfl
        · rw [if_neg hneg]; rfl
  · rw [fracRender, if_neg hz, List.cons_append]
    simp only [parseFracPart]
    exact parse6L_pad6 hmu _

/-- ISO-8601 round trip: rendering a valid datetime and parsing it back is
the identity. -/
theorem isoParse_isoRender {dt : DateTime} (h : validDateTime dt) :
    isoParse (isoRender dt) = some dt := by
  obtain ⟨h1, h2, h3, h4, h5, h6, h7, h8, h9, h10, h11⟩ := h
  show isoParseL (isoRenderL dt) = some dt
  unfold isoRenderL isoParseL
  rw [List.append_assoc (pad2 dt.second)]
  rw [parseYMD_pads (by omega) (by omega) (by omega)]
  simp only [Option.bind_eq_bind, Option.some_bind, expectCh_cons]
  rw [parseHMS_pads (by omega) (by omega) (by omega)]
  simp only [Option.some_bind]
  rw [parseFracPart_render (by omega) dt.tzOffsetMinutes]
  simp only [Option.some_bind]
  rw [parseTzPart_render dt.tzOffsetMinutes h11]
  simp only [Option.some_bind]
  have hvd : validDateTime
      (DateTime.mk dt.year dt.month dt.day dt.hour dt.minute dt.second
        dt.microsecond dt.tzOffsetMinutes) := by
    unfold validDateTime
    exact ⟨h1, h2, h3, h4, h5, h6, h7, h8, h9, h10, h11⟩
  split
  · rfl
  · rename_i hcon
    exact absurd ⟨trivial, hvd⟩ hcon

/-- Dump/validate round trip for one article. -/
theorem validateArticle_dump {a : NewsArticle} (h : validArticle a) :
    validateArticle (dumpArticle a) = .ok a := by
  obtain ⟨url, title, summary, ft, pd, src, rs⟩ := a
  rcases pd with _ | d
  · rcases ft with _ | t <;> rcases rs with _ | q <;> rfl
  · have hi : isoParse (isoRender d) = some d := isoParse_isoRender (h d rfl)
    rcases ft with _ | t <;> rcases rs with _ | q <;>
      simp only [validateArticle, dumpArticle, objGet, String.reduceEq,
        reduceIte, vStr, vOptStr, vOptFloat, vOptDatetime, hi,
        Bind.bind, Except.bind]

/-- Dump/validate round trip over a list of articles. -/
theorem mapM_validate_dump {arts : List NewsArticle}
    (h : ∀ a ∈ arts, validArticle a) :
    (arts.map dumpArticle).mapM validateArticle = .ok arts := by
  induction arts with
  | nil => rfl
  | cons a rest ih =>
      have ha := h a (List.mem_cons_self a rest)
      have hr : ∀ x ∈ rest, validArticle x :=
        fun x hx => h x (List.mem_cons_of_mem a hx)
      simp only [List.map_cons, List.mapM_cons, validateArticle_dump ha,
        ih hr, Bind.bind, Except.bind, pure, Except.pure]

/-- Dump/validate round trip for a whole snapshot: serialization followed by
validation (with `model_post_init`) is the identity on valid snapshots. -/
theorem validateNewsSnapshot_dump {s : NewsSnapshot} (h : validSnapshot s) :
    validateNewsSnapshot (dumpSnapshot s) = .ok s := by
  obtain ⟨qid, fet, arts, query, sid⟩ := s
  obtain ⟨hfet, hsid, harts⟩ := h
  have hi : isoParse (isoRender fet) = some fet := isoParse_isoRender hfet
  have hm : (arts.map dumpArticle).mapM validateArticle = .ok arts :=
    mapM_validate_dump harts
  simp only [validateNewsSnapshot, dumpSnapshot, objGet, String.reduceEq,
    reduceIte, vInt, vStr, vDatetime, hi, hm, pydanticStr,
    Rat.den_intCast, Rat.num_intCast, mkNewsSnapshot, hsid,
    Bind.bind, Except.bind]

/-- A `ChangeReport` constructed with a plain string summary, a plain
boolean flag and an in-range score validates successfully. -/
theorem mkChangeReport_lit (qid : Int) (t : DateTime) (p cid s : String)
    (sc : Rat) (b : Bool) (arts : List NewsArticle)
    (hsc : 0 ≤ sc ∧ sc ≤ 1) :
    mkChangeReport qid t (some p) cid (.str s) sc (.bool b) arts =
      .ok ⟨qid, t, p, cid, s, sc, b, arts⟩ := by
  simp only [mkChangeReport, pydanticStr, pydanticLaxBool,
    Bind.bind, Except.bind, if_pos hsc]

/-- Everything a successful `mkChangeReport` construction tells us about the
resulting report. -/
theorem mkChangeReport_ok {qid : Int} {t : DateTime} {pid : Option String}
    {cid : String} {summ : JsonValue} {sc : Rat} {sig : JsonValue}
    {arts : List NewsArticle} {r : ChangeReport}
    (h : mkChangeReport qid t pid cid summ sc sig arts = .ok r) :
    r.question_id = qid ∧ r.detected_at = t ∧
    pid = some r.previous_snapshot_id ∧ r.current_snapshot_id = cid ∧
    pydanticStr summ = .ok r.change_summary ∧
    r.significance_score = sc ∧ 0 ≤ sc ∧ sc ≤ 1 ∧
    pydanticLaxBool sig = .ok r.is_significant ∧ r.new_articles = arts := by
  unfold mkChangeReport at h
  rcases pid with _ | p
  · exact absurd h (by simp [Bind.bind, Except.bind])
  · simp only [Bind.bind, Except.bind] at h
    split at h
    · exact absurd h (by simp)
    · rename_i su hsu
      split at h
      · rename_i hsc
        split at h
        · exact absurd h (by simp)
        · rename_i sg hsg
          simp only [Except.ok.injEq] at h
          subst h
          exact ⟨rfl, rfl, rfl, rfl, hsu, rfl, hsc.1, hsc.2, hsg, rfl⟩
      · exact absurd h (by simp)

/-- The boolean URL filter used by the source agrees with the
set-difference formulation of the spec. -/
theorem filter_not_urlMem_eq (arts : List NewsArticle) (urls : List String) :
    arts.filter (fun a => !(urlMem a.url urls)) =
      arts.filter (fun a => a.url ∉ urls) := by
  refine List.filter_congr fun a _ => ?_
  rw [urlMem_eq_decide, ← decide_not]

/-- If one `dict.get` succeeded, the value was a dict, so every other
`dict.get` on it succeeds too. -/
theorem pyGet_ok_any {v d x : JsonValue} {k : String}
    (h : pyGet v k d = .ok x) (k' : String) (d' : JsonValue) :
    ∃ y, pyGet v k' d' = .ok y := by
  cases v <;> simp [pyGet] at h ⊢

/-! ### The claims -/

/-- C1: On a first run (no previous snapshot), the spec says the orchestrator
synthesizes a ChangeReport with score 1.0, `is_significant` true and all
merged articles, whenever at least one article was found.  The code does
attempt this, but passes `previous_snapshot_id=None` to a pydantic field
declared as a required `str`; the construction raises a `ValidationError`,
the blanket `except` in `process_question` swallows it, and the function
returns `None`: on a first run with three articles no verdict (and no
`NewsUpdate` at all) is produced, contradicting the claim.  This theorem
evaluates the embedded code at the failing input: the merge yields three
articles, yet `process_question` returns `none`. -/
theorem c1_first_run_verdict_lost :
    process_question exDetector exQuestion none exFetch3 exDT "" = none ∧
    (merge_with_previous exFetch3 none 50).articles.length = 3 :=
  ⟨rfl, rfl⟩

/-- C2: `merge_with_previous` returns the new snapshot unchanged when the
previous snapshot is absent; otherwise its article list is exactly the new
articles whose URL is not among the previous snapshot's URLs (in order)
followed by the entire previous list (in order), truncated to
`max_articles`, and the result carries the new snapshot's question id,
fetch time and search query.  In particular previous `{A, B}` merged with a
fetch `{B, C}` yields URL order `[C, A, B]` of length 3. -/
theorem c2_merge_spec :
    (∀ (ns : NewsSnapshot) (m : Nat), merge_with_previous ns none m = ns) ∧
    (∀ (ns ps : NewsSnapshot) (m : Nat),
      (merge_with_previous ns (some ps) m).articles =
        ((ns.articles.filter fun a => a.url ∉ snapshotUrls ps) ++
          ps.articles).take m ∧
      (merge_with_previous ns (some ps) m).question_id = ns.question_id ∧
      (merge_with_previous ns (some ps) m).fetched_at = ns.fetched_at ∧
      (merge_with_previous ns (some ps) m).search_query = ns.search_query) ∧
    (snapshotUrls (merge_with_previous exCur (some exPrev) 50) =
      ["C", "A", "B"] ∧
     (merge_with_previous exCur (some exPrev) 50).articles.length = 3) := by
  refine ⟨fun ns m => rfl, fun ns ps m => ⟨?_, rfl, rfl, rfl⟩, by rfl, by rfl⟩
  simp only [merge_with_previous, mkNewsSnapshot, filter_not_urlMem_eq]

/-- C7: whenever every URL of the current snapshot already occurs among the
previous snapshot's URLs, `detect_changes` returns the short-circuit report
(score 0.0, not significant, empty `new_articles`, fixed summary), for
every value of the external reply — i.e. without consulting the external
text-generation service at all. -/
theorem c7_short_circuit (cd : ChangeDetector) (q : QuestionMetadata)
    (prev cur : NewsSnapshot) (now : DateTime) (llmReply : String)
    (h : ∀ a ∈ cur.articles, a.url ∈ snapshotUrls prev) :
    cd.detect_changes q prev cur now llmReply =
      .ok ⟨q.question_id, now, prev.snapshot_id, cur.snapshot_id,
        "No new articles found since last check.", 0, false, []⟩ := by
  have hfil :
      cur.articles.filter (fun a => !(urlMem a.url (snapshotUrls prev))) = [] := by
    refine List.filter_eq_nil_iff.mpr fun a ha => ?_
    simp [urlMem_iff.mpr (h a ha)]
  simp only [ChangeDetector.detect_changes, hfil, List.isEmpty_nil, if_true]
  exact mkChangeReport_lit _ _ _ _ _ _ _ _ (by norm_num)

/-- C7 witness: a concrete current snapshot whose URLs are a subset of the
previous snapshot's URLs short-circuits as stated. -/
theorem c7_short_circuit_witness :
    exDetector.detect_changes exQuestion exPrev exSub exDT "unused reply" =
      .ok ⟨exQuestion.question_id, exDT, exPrev.snapshot_id, exSub.snapshot_id,
        "No new articles found since last check.", 0, false, []⟩ :=
  c7_short_circuit exDetector exQuestion exPrev exSub exDT "unused reply"
    (by decide)

/-- C6 counterexample: the claim says *every* output of
`merge_with_previous` has pairwise-distinct URLs.  A freshly fetched batch
that itself contains the same URL twice defeats this: merging
`[X, X]` with previous `[A, B]` yields URL list `[X, X, A, B]`, which has a
duplicate. -/
theorem c6_duplicate_urls_counterexample :
    snapshotUrls (merge_with_previous exDupNew (some exPrev) 50) =
      ["X", "X", "A", "B"] ∧
    ¬ (snapshotUrls (merge_with_previous exDupNew (some exPrev) 50)).Nodup := by
  exact ⟨by decide, by decide⟩

/-- C6 amended: the merge output has pairwise-distinct URLs provided each
input snapshot's own article list has pairwise-distinct URLs (deduplication
across the two snapshots is guaranteed by the URL filter; deduplication
*within* a batch is the upstream fetcher's responsibility and is not done
here). -/
theorem c6_merge_nodup_amended (ns : NewsSnapshot)
    (previous : Option NewsSnapshot) (m : Nat)
    (h1 : (snapshotUrls ns).Nodup)
    (h2 : ∀ ps ∈ previous, (snapshotUrls ps).Nodup) :
    (snapshotUrls (merge_with_previous ns previous m)).Nodup := by
  rcases previous with _ | ps
  · exact h1
  · have hps := h2 ps rfl
    show (((ns.articles.filter (fun a => !(urlMem a.url (snapshotUrls ps))) ++
      ps.articles).take m).map (·.url)).Nodup
    rw [List.map_take]
    refine List.Nodup.sublist (List.take_sublist _ _) ?_
    rw [List.map_append]
    refine List.nodup_append.mpr ⟨?_, hps, ?_⟩
    · exact List.Nodup.sublist (List.Sublist.map _ (List.filter_sublist _)) h1
    · intro u hu hup
      obtain ⟨a, ha, rfl⟩ := List.mem_map.mp hu
      have hf := (List.mem_filter.mp ha).2
      have hm : urlMem a.url (snapshotUrls ps) = true := urlMem_iff.mpr hup
      rw [hm] at hf
      exact absurd hf (by simp)

/-- C6 witness: on duplicate-free inputs the merged output is
duplicate-free. -/
theorem c6_merge_nodup_witness :
    (snapshotUrls (merge_with_previous exCur (some exPrev) 50)).Nodup :=
  c6_merge_nodup_amended exCur (some exPrev) 50 (by decide)
    (fun ps hps => by
      obtain rfl : exPrev = ps := Option.some_inj.mp (Option.mem_def.mp hps)
      decide)

/-- C5 counterexample: the claim says parsing stops at the first success and
strategy (c) — the first brace-delimited object — is attempted whenever
both (a) and (b) fail.  On `exCascadeText`, (a) fails, the fenced-block
search of (b) captures `\x7b \x7b\x7d` whose contents also fail to parse —
so (b) produced no parse — and the brace search of (c) would find `\x7b\x7d`,
which parses to the empty object.  Yet `_parse_json_response` propagates
(b)'s decode error without ever attempting (c): the cascade errors where
the claimed behaviour would succeed. -/
theorem c5_fenced_skip_counterexample :
    (jsonLoads exCascadeText).isOk = false ∧
    fencedSearch exCascadeText = some "\x7b \x7b\x7d" ∧
    (jsonLoads "\x7b \x7b\x7d").isOk = false ∧
    braceSearch exCascadeText = some "\x7b\x7d" ∧
    jsonLoads "\x7b\x7d" = .ok (.obj []) ∧
    (parseJsonResponse exCascadeText).isOk = false :=
  ⟨rfl, by decide, rfl, by decide, rfl, rfl⟩

/-- C5 amended: the three strategies run in order with the first success
winning, but strategy (c) is attempted only when (a) fails *and (b) finds
no fenced block at all*; if (b) finds a block, its parse result — success
or error — is final (an error then falls through to the caller's fallback
without (c) being tried). -/
theorem c5_parse_cascade :
    (∀ (t : String) (v : JsonValue),
      jsonLoads t = .ok v → parseJsonResponse t = .ok v) ∧
    (∀ (t e g : String), jsonLoads t = .error e →
      fencedSearch t = some g → parseJsonResponse t = jsonLoads g) ∧
    (∀ (t e g : String), jsonLoads t = .error e → fencedSearch t = none →
      braceSearch t = some g → parseJsonResponse t = jsonLoads g) ∧
    (∀ (t e : String), jsonLoads t = .error e → fencedSearch t = none →
      braceSearch t = none →
      parseJsonResponse t =
        .error ("Could not extract JSON from response: " ++ t.take 200)) := by
  refine ⟨fun t v h1 => ?_, fun t e g h1 h2 => ?_, fun t e g h1 h2 h3 => ?_,
    fun t e h1 h2 h3 => ?_⟩ <;>
    unfold parseJsonResponse
  · rw [h1]
  · rw [h1, h2]
  · rw [h1, h2, h3]
  · rw [h1, h2, h3]

/-- C5 witness: on a text with no fenced block, an unparsable prefix and a
brace-delimited object, the cascade returns exactly strategy (c)'s parse. -/
theorem c5_parse_cascade_witness :
    parseJsonResponse "x \x7b\x7d" = jsonLoads "\x7b\x7d" :=
  c5_parse_cascade.2.2.1 "x \x7b\x7d" _ _ rfl (by decide) (by decide)

/-- C3 counterexample: the claim says `is_significant` is true whenever the
returned score strictly exceeds the threshold, for any parsed result.  A
parsed reply whose `IS_SIGNIFICANT` field is the *string* `"false"` defeats
this: the string is truthy, so Python's `or` short-circuits to it, and
pydantic's lax bool validation coerces `"false"` to `False` — the returned
report has score 0.9 > 0.3 yet `is_significant = false`. -/
theorem c3_string_flag_counterexample :
    (exDetector.detect_changes exQuestion exPrev exCur exDT
        exReplyStringFlag).map
      (fun r =>
        (decide (r.significance_score > exDetector.significance_threshold),
         r.is_significant)) = .ok (true, false) := by
  decide

/-- C3 amended: for every report produced by the classification path (new
articles present), *provided the parsed-or-fallback `IS_SIGNIFICANT` value
is an actual boolean `b` (or absent, defaulting to false)*, the report's
`is_significant` equals `b OR (score > threshold)`; in particular it is
true whenever the score strictly exceeds the threshold, and a true upstream
flag can never be suppressed.  (A truthy non-boolean flag value instead
short-circuits Python's `or` and is handed to pydantic's lax coercion, see
the counterexample.) -/
theorem c3_flag_or_threshold (cd : ChangeDetector) (q : QuestionMetadata)
    (prev cur : NewsSnapshot) (now : DateTime) (reply : String)
    (r : ChangeReport) (b : Bool)
    (hok : cd.detect_changes q prev cur now reply = .ok r)
    (hne : cur.articles.filter
      (fun a => !(urlMem a.url (snapshotUrls prev))) ≠ [])
    (hflag : pyGet (parsedResult reply
        (cur.articles.filter
          (fun a => !(urlMem a.url (snapshotUrls prev)))).length)
        "IS_SIGNIFICANT" (.bool false) = .ok (.bool b)) :
    r.is_significant =
      (b || decide (r.significance_score > cd.significance_threshold)) ∧
    (r.significance_score > cd.significance_threshold →
      r.is_significant = true) := by
  simp only [ChangeDetector.detect_changes] at hok
  rw [if_neg (fun hh => hne (List.isEmpty_iff.mp hh))] at hok
  rw [exceptBind_ok] at hok
  obtain ⟨sv, hsv, hok⟩ := hok
  rw [exceptBind_ok] at hok
  obtain ⟨sc, hsc, hok⟩ := hok
  rw [exceptBind_ok] at hok
  obtain ⟨fv, hfv, hok⟩ := hok
  rw [hflag] at hfv
  injection hfv with hfv
  subst hfv
  rw [exceptBind_ok] at hok
  obtain ⟨su, hsu, hok⟩ := hok
  have hfields := mkChangeReport_ok hok
  have hscore : r.significance_score = sc := hfields.2.2.2.2.2.1
  have hlax := hfields.2.2.2.2.2.2.2.2.1
  rw [hscore]
  cases b
  · simp only [pyTruthy, Bool.false_eq_true, if_false] at hlax
    simp only [pydanticLaxBool, Except.ok.injEq] at hlax
    constructor
    · rw [← hlax]
      simp
    · intro hgt
      rw [← hlax]
      simp [hgt]
  · simp only [pyTruthy, if_true] at hlax
    simp only [pydanticLaxBool, Except.ok.injEq] at hlax
    rw [← hlax]
    simp

/-- C3 witness: a reply with a genuine boolean flag `false` and score 0.7
above the 0.3 threshold yields `is_significant = false || (0.7 > 0.3) =
true`. -/
theorem c3_flag_or_threshold_witness :
    exDetector.detect_changes exQuestion exPrev exCur exDT exReplyOk =
      .ok exReportOk ∧
    (exReportOk.is_significant =
      (false ||
        decide (exReportOk.significance_score >
          exDetector.significance_threshold)) ∧
     (exReportOk.significance_score > exDetector.significance_threshold →
       exReportOk.is_significant = true)) := by
  have hok : exDetector.detect_changes exQuestion exPrev exCur exDT exReplyOk =
      .ok exReportOk := by decide
  exact ⟨hok, c3_flag_or_threshold _ _ _ _ _ _ _ false hok (by decide) rfl⟩

/-- C4: whenever the reply text defeats all three parsing strategies,
`detect_changes` does not raise: it returns the fallback verdict with score
0.5, `is_significant` true, a summary naming the number N of genuinely new
articles, and the full new-article list. -/
theorem c4_fallback_verdict (cd : ChangeDetector) (q : QuestionMetadata)
    (prev cur : NewsSnapshot) (now : DateTime) (reply : String)
    (hne : cur.articles.filter
      (fun a => !(urlMem a.url (snapshotUrls prev))) ≠ [])
    (hfail : (parseJsonResponse (resultTextOf reply)).isOk = false) :
    cd.detect_changes q prev cur now reply =
      .ok ⟨q.question_id, now, prev.snapshot_id, cur.snapshot_id,
        "New articles found but analysis failed: " ++
          toString (cur.articles.filter
            (fun a => !(urlMem a.url (snapshotUrls prev)))).length ++
          " new article(s)",
        mkRat 1 2, true,
        cur.articles.filter (fun a => !(urlMem a.url (snapshotUrls prev)))⟩ := by
  have hpr : parsedResult reply
      (cur.articles.filter
        (fun a => !(urlMem a.url (snapshotUrls prev)))).length =
      fallbackResult (cur.articles.filter
        (fun a => !(urlMem a.url (snapshotUrls prev)))).length := by
    unfold parsedResult
    rcases hp : parseJsonResponse (resultTextOf reply) with e | v
    · rfl
    · rw [hp] at hfail
      exact Bool.noConfusion hfail
  simp only [ChangeDetector.detect_changes]
  rw [if_neg (fun hh => hne (List.isEmpty_iff.mp hh)), hpr]
  exact mkChangeReport_lit _ _ _ _ _ (mkRat 1 2) _ _ ⟨by decide, by decide⟩

/-- C4 witness: plain non-JSON text takes the fallback path on concrete
snapshots (one genuinely new article). -/
theorem c4_fallback_verdict_witness :
    exDetector.detect_changes exQuestion exPrev exCur exDT "not json at all" =
      .ok ⟨exQuestion.question_id, exDT, exPrev.snapshot_id, exCur.snapshot_id,
        "New articles found but analysis failed: " ++
          toString (exCur.articles.filter
            (fun a => !(urlMem a.url (snapshotUrls exPrev)))).length ++
          " new article(s)",
        mkRat 1 2, true,
        exCur.articles.filter
          (fun a => !(urlMem a.url (snapshotUrls exPrev)))⟩ :=
  c4_fallback_verdict exDetector exQuestion exPrev exCur exDT "not json at all"
    (by decide) (by decide)

/-- C8: the "new articles relative to previous" view: `get_new_articles`
returns the current articles unfiltered when the previous snapshot is
absent, and otherwise the URL-set-difference preserving order; and every
report `detect_changes` returns carries exactly that list (the detector
re-derives it identically). -/
theorem c8_new_articles_refinement :
    (∀ cur : NewsSnapshot, get_new_articles cur none = cur.articles) ∧
    (∀ cur prev : NewsSnapshot,
      get_new_articles cur (some prev) =
        cur.articles.filter fun a => a.url ∉ snapshotUrls prev) ∧
    (∀ (cd : ChangeDetector) (q : QuestionMetadata)
        (prev cur : NewsSnapshot) (now : DateTime) (reply : String)
        (r : ChangeReport),
      cd.detect_changes q prev cur now reply = .ok r →
      r.new_articles = get_new_articles cur (some prev)) := by
  refine ⟨fun cur => rfl, fun cur prev => filter_not_urlMem_eq _ _,
    fun cd q prev cur now reply r h => ?_⟩
  simp only [ChangeDetector.detect_changes] at h
  by_cases hemp :
      (cur.articles.filter fun a => !(urlMem a.url (snapshotUrls prev))).isEmpty
  · rw [if_pos hemp] at h
    have hnil := List.isEmpty_iff.mp hemp
    rw [(mkChangeReport_ok h).2.2.2.2.2.2.2.2.2]
    show ([] : List NewsArticle) = get_new_articles cur (some prev)
    rw [show get_new_articles cur (some prev) =
      cur.articles.filter (fun a => !(urlMem a.url (snapshotUrls prev)))
      from rfl]
    exact hnil.symm
  · rw [if_neg hemp] at h
    rw [exceptBind_ok] at h
    obtain ⟨sv, hsv, h⟩ := h
    rw [exceptBind_ok] at h
    obtain ⟨sc, hsc, h⟩ := h
    rw [exceptBind_ok] at h
    obtain ⟨fv, hfv, h⟩ := h
    rw [exceptBind_ok] at h
    obtain ⟨su, hsu, h⟩ := h
    rw [(mkChangeReport_ok h).2.2.2.2.2.2.2.2.2]
    rfl

/-- C8 witness: on a concrete run the report's `new_articles` equals the
independent query's answer, and the absent-previous case returns the
articles unfiltered. -/
theorem c8_new_articles_refinement_witness :
    get_new_articles exCur none = exCur.articles ∧
    exReportOk.new_articles = get_new_articles exCur (some exPrev) := by
  have hok : exDetector.detect_changes exQuestion exPrev exCur exDT exReplyOk =
      .ok exReportOk := by decide
  exact ⟨c8_new_articles_refinement.1 exCur,
    c8_new_articles_refinement.2.2 _ _ _ _ _ _ _ hok⟩

/-- C9: serializing a snapshot (`model_dump_json`) and validating it back
(`model_validate`), modelled at the JSON-value level, reproduces the
identical snapshot id and the same article URLs in the same order — for
every snapshot whose datetimes satisfy Python's `datetime` invariants and
whose id is non-empty (as `model_post_init` guarantees).  The validated
snapshot is in fact identical to the original. -/
theorem c9_snapshot_round_trip (s : NewsSnapshot) (h : validSnapshot s) :
    ∃ s2, validateNewsSnapshot (dumpSnapshot s) = .ok s2 ∧
      s2.snapshot_id = s.snapshot_id ∧ snapshotUrls s2 = snapshotUrls s :=
  ⟨s, validateNewsSnapshot_dump h, rfl, rfl⟩

/-- C9 witness: the round trip on a concrete two-article snapshot. -/
theorem c9_snapshot_round_trip_witness :
    ∃ s2, validateNewsSnapshot (dumpSnapshot exPrev) = .ok s2 ∧
      s2.snapshot_id = exPrev.snapshot_id ∧
      snapshotUrls s2 = snapshotUrls exPrev :=
  c9_snapshot_round_trip exPrev (by decide)

/-- C10: every report `detect_changes` returns has its score in `[0, 1]`
(pydantic's `Field(ge=0.0, le=1.0)`); and when the reply parses but its
score field either cannot be coerced by `float()` or is coercible yet
outside `[0, 1]`, `detect_changes` raises (the error is not downgraded to
the fallback verdict, whose `try/except` only guards the parse). -/
theorem c10_score_validation :
    (∀ (cd : ChangeDetector) (q : QuestionMetadata) (prev cur : NewsSnapshot)
        (now : DateTime) (reply : String) (r : ChangeReport),
      cd.detect_changes q prev cur now reply = .ok r →
      0 ≤ r.significance_score ∧ r.significance_score ≤ 1) ∧
    (∀ (cd : ChangeDetector) (q : QuestionMetadata) (prev cur : NewsSnapshot)
        (now : DateTime) (reply : String) (v sv : JsonValue) (e : String),
      cur.articles.filter
        (fun a => !(urlMem a.url (snapshotUrls prev))) ≠ [] →
      parseJsonResponse (resultTextOf reply) = .ok v →
      pyGet v "SIGNIFICANCE_SCORE" (.num 0) = .ok sv →
      pyFloat sv = .error e →
      (cd.detect_changes q prev cur now reply).isOk = false) ∧
    (∀ (cd : ChangeDetector) (q : QuestionMetadata) (prev cur : NewsSnapshot)
        (now : DateTime) (reply : String) (v sv : JsonValue) (sc : Rat),
      cur.articles.filter
        (fun a => !(urlMem a.url (snapshotUrls prev))) ≠ [] →
      parseJsonResponse (resultTextOf reply) = .ok v →
      pyGet v "SIGNIFICANCE_SCORE" (.num 0) = .ok sv →
      pyFloat sv = .ok sc →
      (sc < 0 ∨ 1 < sc) →
      (cd.detect_changes q prev cur now reply).isOk = false) := by
  refine ⟨fun cd q prev cur now reply r h => ?_,
    fun cd q prev cur now reply v sv e hne hparse hget hfl => ?_,
    fun cd q prev cur now reply v sv sc hne hparse hget hfl hout => ?_⟩
  · simp only [ChangeDetector.detect_changes] at h
    by_cases hemp : (cur.articles.filter
        fun a => !(urlMem a.url (snapshotUrls prev))).isEmpty
    · rw [if_pos hemp] at h
      have hf := mkChangeReport_ok h
      rw [hf.2.2.2.2.2.1]
      exact ⟨hf.2.2.2.2.2.2.1, hf.2.2.2.2.2.2.2.1⟩
    · rw [if_neg hemp] at h
      rw [exceptBind_ok] at h
      obtain ⟨sv, hsv, h⟩ := h
      rw [exceptBind_ok] at h
      obtain ⟨sc, hsc, h⟩ := h
      rw [exceptBind_ok] at h
      obtain ⟨fv, hfv, h⟩ := h
      rw [exceptBind_ok] at h
      obtain ⟨su, hsu, h⟩ := h
      have hf := mkChangeReport_ok h
      rw [hf.2.2.2.2.2.1]
      exact ⟨hf.2.2.2.2.2.2.1, hf.2.2.2.2.2.2.2.1⟩
  · have hpr : parsedResult reply
        (cur.articles.filter
          (fun a => !(urlMem a.url (snapshotUrls prev)))).length = v := by
      unfold parsedResult
      rw [hparse]
    simp only [ChangeDetector.detect_changes]
    rw [if_neg (fun hh => hne (List.isEmpty_iff.mp hh)), hpr, hget]
    simp only [Bind.bind, Except.bind, hfl, Except.isOk]
    rfl
  · have hpr : parsedResult reply
        (cur.articles.filter
          (fun a => !(urlMem a.url (snapshotUrls prev)))).length = v := by
      unfold parsedResult
      rw [hparse]
    simp only [ChangeDetector.detect_changes]
    rw [if_neg (fun hh => hne (List.isEmpty_iff.mp hh)), hpr, hget]
    obtain ⟨fv, hfv⟩ := pyGet_ok_any hget "IS_SIGNIFICANT" (.bool false)
    obtain ⟨su, hsu⟩ := pyGet_ok_any hget "CHANGE_SUMMARY"
      (.str "No summary available.")
    simp only [Bind.bind, Except.bind, hfl, hfv, hsu]
    rcases hmk : mkChangeReport q.question_id now (some prev.snapshot_id)
        cur.snapshot_id su sc
        (if pyTruthy fv = true then fv
         else JsonValue.bool (decide (sc > cd.significance_threshold)))
        (cur.articles.filter
          fun a => !(urlMem a.url (snapshotUrls prev))) with e2 | r2
    · rfl
    · exfalso
      have hf := mkChangeReport_ok hmk
      rcases hout with hlt | hgt
      · exact absurd hf.2.2.2.2.2.2.1 (not_le.mpr hlt)
      · exact absurd hf.2.2.2.2.2.2.2.1 (not_le.mpr hgt)

/-- C10 witness: a concrete in-range run, a concrete non-coercible score
(string `"abc"`), and a concrete out-of-range score (1.5). -/
theorem c10_score_validation_witness :
    ((0 : Rat) ≤ exReportOk.significance_score ∧
      exReportOk.significance_score ≤ 1) ∧
    (exDetector.detect_changes exQuestion exPrev exCur exDT
      exReplyBadScore).isOk = false ∧
    (exDetector.detect_changes exQuestion exPrev exCur exDT
      exReplyBigScore).isOk = false := by
  have hok : exDetector.detect_changes exQuestion exPrev exCur exDT exReplyOk =
      .ok exReportOk := by decide
  refine ⟨c10_score_validation.1 _ _ _ _ _ _ _ hok, ?_, ?_⟩
  · exact c10_score_validation.2.1 _ _ _ _ _ _ exBadScoreVal (.str "abc")
      "ValueError: could not convert string to float" (by decide) rfl rfl rfl
  · exact c10_score_validation.2.2 _ _ _ _ _ _ exBigScoreVal
      (.num (assembleRat false 1 5 1 false 0))
      (assembleRat false 1 5 1 false 0) (by decide) rfl rfl rfl
      (Or.inr (by decide))

end NewsForecaster
